import Mathlib

/-!
# Verification of the julia-rs safety layer

A shallow embedding of the julia-rs wrapper crates (`julia-rs` and
`julia-sys`) together with proofs about the exception bridge, the boxing and
unboxing conversions, the generic value-handle protocol, and the GC
coordination primitives.

Pointers are modelled as `Nat` (0 is the null pointer).  Machine integers are
modelled as `Int`; the boxing/unboxing entry points move payloads verbatim,
so no overflow arithmetic is involved.  Floating-point payloads are modelled
as their raw bit patterns (the conversions copy bits and perform no
floating-point arithmetic).
-/

namespace JuliaRS

/-! ## Runtime object model

A foreign heap object, as seen through the tag word read by
`jl_typetagof`/`jl_typeof` (`src/julia-sys/src/lib.rs`).  The dynamic type is
abstracted to the tags the wrapper inspects; `tOther` carries the datatype
name returned by `jl_typeof_str` for every other type. -/

/-- Dynamic runtime type of a foreign object, as decoded from its tag word. -/
inductive JlTag where
  | tBool
  | tChar
  | tInt8
  | tInt16
  | tInt32
  | tInt64
  | tUInt8
  | tUInt16
  | tUInt32
  | tUInt64
  | tFloat32
  | tFloat64
  | tString
  | tOther (name : String)
  deriving DecidableEq, Repr

/-- The datatype name reported by `jl_typeof_str` for each modelled tag. -/
def JlTag.name : JlTag → String
  | .tBool => "Bool"
  | .tChar => "Char"
  | .tInt8 => "Int8"
  | .tInt16 => "Int16"
  | .tInt32 => "Int32"
  | .tInt64 => "Int64"
  | .tUInt8 => "UInt8"
  | .tUInt16 => "UInt16"
  | .tUInt32 => "UInt32"
  | .tUInt64 => "UInt64"
  | .tFloat32 => "Float32"
  | .tFloat64 => "Float64"
  | .tString => "String"
  | .tOther n => n

/-- A foreign heap object: its dynamic type tag, its numeric payload (for the
boxed primitives; raw bit pattern for floats), and its byte content (for
strings, assumed valid UTF-8). -/
structure JlObject where
  tag : JlTag
  payload : Int
  strData : String
  deriving DecidableEq, Repr

/-! ## Host-level error type (`src/julia-rs/src/error.rs`)

`Exception` and `Error` are mutually entangled in the source
(`Error::UnhandledException` carries an `Exception`); the wrapped lower-level
errors (`CStrError`, `IOError`, ...) are modelled as bare tags since their
payloads never influence control flow in the verified operations. -/

/-- The wrapped Julia value carried by every `Exception` variant: a freshly
constructed `Value` handle around the exception object.  Shared-ownership
count and poison flag model the `Rc<Mutex<NonNull<_>>>` slot of
`simple_jlvalue!`. -/
structure ValueH where
  obj : JlObject
  owners : Nat
  poisoned : Bool
  deriving DecidableEq, Repr

/-- A fresh `Value` handle as produced by `Value::new`/`new_unchecked`:
one owner, unpoisoned. -/
def ValueH.fresh (o : JlObject) : ValueH := ⟨o, 1, false⟩

/-- `Exception` (`src/julia-rs/src/api/exception.rs` lines 16-67): the closed
tagged union over the foreign fault categories, each variant carrying the
wrapped exception object. -/
inductive Exception where
  | Argument (value : ValueH)
  | Bounds (value : ValueH)
  | Composite (value : ValueH)
  | Divide (value : ValueH)
  | Domain (value : ValueH)
  | EOF (value : ValueH)
  | Error (value : ValueH)
  | Inexact (value : ValueH)
  | Init (value : ValueH)
  | Interrupt (value : ValueH)
  | InvalidState (value : ValueH)
  | Key (value : ValueH)
  | Load (value : ValueH)
  | OutOfMemory (value : ValueH)
  | ReadOnlyMemory (value : ValueH)
  | Remote (value : ValueH)
  | Method (value : ValueH)
  | Overflow (value : ValueH)
  | Parse (value : ValueH)
  | System (value : ValueH)
  | Type (value : ValueH)
  | UndefRef (value : ValueH)
  | UndefVar (value : ValueH)
  | Unicode (value : ValueH)
  | Unknown (value : ValueH)
  deriving DecidableEq, Repr

/-- The bare variant tag of an `Exception`, used to compare classifications
against the spec's taxonomy. -/
inductive ExcKind where
  | Argument | Bounds | Composite | Divide | Domain | EOF | Error | Inexact
  | Init | Interrupt | InvalidState | Key | Load | OutOfMemory
  | ReadOnlyMemory | Remote | Method | Overflow | Parse | System | Type
  | UndefRef | UndefVar | Unicode | Unknown
  deriving DecidableEq, Repr

/-- Variant tag of an exception. -/
def Exception.kind : Exception → ExcKind
  | .Argument _ => .Argument
  | .Bounds _ => .Bounds
  | .Composite _ => .Composite
  | .Divide _ => .Divide
  | .Domain _ => .Domain
  | .EOF _ => .EOF
  | .Error _ => .Error
  | .Inexact _ => .Inexact
  | .Init _ => .Init
  | .Interrupt _ => .Interrupt
  | .InvalidState _ => .InvalidState
  | .Key _ => .Key
  | .Load _ => .Load
  | .OutOfMemory _ => .OutOfMemory
  | .ReadOnlyMemory _ => .ReadOnlyMemory
  | .Remote _ => .Remote
  | .Method _ => .Method
  | .Overflow _ => .Overflow
  | .Parse _ => .Parse
  | .System _ => .System
  | .Type _ => .Type
  | .UndefRef _ => .UndefRef
  | .UndefVar _ => .UndefVar
  | .Unicode _ => .Unicode
  | .Unknown _ => .Unknown

/-- The wrapped inner value of an exception (`Exception::into_inner`). -/
def Exception.intoInner : Exception → ValueH
  | .Argument v => v
  | .Bounds v => v
  | .Composite v => v
  | .Divide v => v
  | .Domain v => v
  | .EOF v => v
  | .Error v => v
  | .Inexact v => v
  | .Init v => v
  | .Interrupt v => v
  | .InvalidState v => v
  | .Key v => v
  | .Load v => v
  | .OutOfMemory v => v
  | .ReadOnlyMemory v => v
  | .Remote v => v
  | .Method v => v
  | .Overflow v => v
  | .Parse v => v
  | .System v => v
  | .Type v => v
  | .UndefRef v => v
  | .UndefVar v => v
  | .Unicode v => v
  | .Unknown v => v

/-- `Error` (`src/julia-rs/src/error.rs`): the host-level error union. -/
inductive Error where
  | UnhandledException (ex : Exception)
  | InvalidUnbox
  | NotAFunction
  | CallError
  | EvalError
  | NullPointer
  | InvalidSymbol
  | JuliaInitialized
  | CStrError
  | CStringError
  | PoisonError
  | ResourceInUse
  | UTF8Error
  | FromUTF8Error
  | IntoStringError
  | IOError
  deriving DecidableEq, Repr

/-! ## The `Value` handle's own operations used by the exception bridge -/

/-- `JlValue::lock` on a `Value` handle: fails with `PoisonError` when the
inner mutex is poisoned, otherwise yields the pointee (the dereference of the
guarded pointer). -/
def ValueH.lock (v : ValueH) : Except Error JlObject :=
  if v.poisoned then .error .PoisonError else .ok v.obj

/-- `JlValue::typename` (`src/julia-rs/src/api/value.rs` lines 67-72):
`self.lock()?`, then `jl_typeof_str` on the raw pointer (which reads the tag
word and reports the datatype name; it raises no guest exception, so the
`jl_catch!` probe inside `typename` observes a clear state), then the
UTF-8 conversion (datatype names are valid UTF-8 in the model). -/
def ValueH.typename (v : ValueH) : Except Error String :=
  match v.lock with
  | .error e => .error e
  | .ok o => .ok o.tag.name

/-! ## Exception classification (`Exception::with_value`) -/

/-- The string match of `Exception::with_value`
(`src/julia-rs/src/api/exception.rs` lines 89-115): classify by exact string
match of the runtime type name; every unrecognized name maps to `Unknown`. -/
def Exception.classify (typename : String) (value : ValueH) : Exception :=
  match typename with
  | "ArgumentError" => .Argument value
  | "BoundsError" => .Bounds value
  | "CompositeException" => .Composite value
  | "DivideError" => .Divide value
  | "DomainError" => .Domain value
  | "EOFError" => .EOF value
  | "ErrorException" => .Error value
  | "InexactError" => .Inexact value
  | "InitError" => .Init value
  | "InterruptException" => .Interrupt value
  | "InvalidStateException" => .InvalidState value
  | "KeyError" => .Key value
  | "LoadError" => .Load value
  | "OutOfMemoryError" => .OutOfMemory value
  | "ReadOnlyMemoryError" => .ReadOnlyMemory value
  | "RemoteException" => .Remote value
  | "MethodError" => .Method value
  | "OverflowError" => .Overflow value
  | "ParseError" => .Parse value
  | "SystemError" => .System value
  | "TypeError" => .Type value
  | "UndefRefError" => .UndefRef value
  | "UndefVarError" => .UndefVar value
  | "UnicodeError" => .Unicode value
  | _ => .Unknown value

/-- `Exception::with_value` (`src/julia-rs/src/api/exception.rs` lines
87-117): `let typename = value.typename()?;` then the string match; the only
failure path is `typename` itself failing. -/
def Exception.withValue (value : ValueH) : Except JuliaRS.Error Exception :=
  match value.typename with
  | .error e => .error e
  | .ok typename => .ok (Exception.classify typename value)

/-- The classification `Exception::catch` produces for a pending exception
object: a fresh `Value` handle around it, classified by its type name. -/
def Exception.classifyObj (o : JlObject) : Exception :=
  Exception.classify o.tag.name (ValueH.fresh o)

/-! ## The pending-exception slot and `Exception::catch`

The runtime keeps one pending-exception slot per logical thread
(`jl_exception_occurred` returns the pending exception object or null;
`jl_exception_clear` empties the slot).  The slot is modelled as
`Option JlObject`; a foreign call's effect on it is an input to each wrapper
operation. -/

/-- `Exception::occurred`: `!jl_exception_occurred().is_null()`. -/
def Exception.occurred (pending : Option JlObject) : Bool :=
  pending.isSome

/-- `Exception::catch` (`src/julia-rs/src/api/exception.rs` lines 77-83):
read the slot with `jl_exception_occurred`, unconditionally clear it with
`jl_exception_clear`, then `Value::new(raw).and_then(Self::with_value).ok()`
(`Value::new` fails on the null pointer of a clear slot, giving `None`).
Returns the caught classification together with the slot left behind. -/
def Exception.catchPending (pending : Option JlObject) :
    Option Exception × Option JlObject :=
  let raw := pending
  let cleared : Option JlObject := none
  match raw with
  | none => (none, cleared)
  | some o =>
    (((Exception.withValue (ValueH.fresh o)).map some).toOption.join, cleared)

/-! ## The `jl_catch!` convention (`src/julia-rs/src/api/mod.rs` lines 14-30)

After any foreign call that can fault: `if let Some(ex) = Exception::catch()
{ return Err(Error::UnhandledException(ex)); }`.  Modelled as a probe that
maps the slot to either a host-level error (short-circuiting the caller) or
nothing, together with the cleared slot. -/

/-- The default `jl_catch!()` probe. -/
def jlCatch (pending : Option JlObject) : Option Error × Option JlObject :=
  match Exception.catchPending pending with
  | (some ex, p) => (some (.UnhandledException ex), p)
  | (none, p) => (none, p)

/-! ## The generic pointer-level handle (`simple_jlvalue!`)

`src/julia-rs/src/api/value.rs` lines 138-218: every wrapper type generated
by the macro holds an `Rc<Mutex<NonNull<T>>>`.  The handle is modelled at the
pointer level: the wrapped raw pointer (a `Nat`, never 0 once constructed),
the `Rc` strong count, and the mutex poison flag.  The phantom pointee type
parameter of the macro does not influence any operation's behaviour, so a
single `Handle` type models every generated wrapper. -/

structure Handle where
  ptr : Nat
  owners : Nat
  poisoned : Bool
  deriving DecidableEq, Repr

namespace Handle

/-- `new_unchecked`: wrap the pointer in a fresh `Rc<Mutex<NonNull<_>>>`
slot (one owner, unpoisoned) without a null check. -/
def newUnchecked (inner : Nat) : Handle := ⟨inner, 1, false⟩

/-- `new`: the checked constructor; `Err(Error::NullPointer)` on a null
pointer, otherwise `new_unchecked`. -/
def new (inner : Nat) : Except Error Handle :=
  if inner = 0 then .error .NullPointer else .ok (newUnchecked inner)

/-- `lock`: `self._inner.lock().map(|ptr| ptr.as_ptr())`; fails with
`PoisonError` if the mutex is poisoned. -/
def lock (h : Handle) : Except Error Nat :=
  if h.poisoned then .error .PoisonError else .ok h.ptr

/-- `into_inner`: `Rc::try_unwrap` (fails with `ResourceInUse` while other
shared owners exist), then `Mutex::into_inner` (fails with `PoisonError` on
a poisoned mutex), then `NonNull::as_ptr`. -/
def intoInner (h : Handle) : Except Error Nat :=
  if h.owners ≠ 1 then .error .ResourceInUse
  else if h.poisoned then .error .PoisonError
  else .ok h.ptr

/-- `JlValue::from_value` (`src/julia-rs/src/api/value.rs` lines 125-128):
`Self::new(val.into_inner()? as *mut T)` — consume the other handle and
re-wrap its raw pointer under the new type, with no reallocation. -/
def fromValue (val : Handle) : Except Error Handle :=
  match val.intoInner with
  | .error e => .error e
  | .ok raw => new raw

/-- `JlValue::into_value` (`src/julia-rs/src/api/value.rs` lines 132-135):
`A::new(self.into_inner()? as *mut U)`. -/
def intoValue (h : Handle) : Except Error Handle :=
  match h.intoInner with
  | .error e => .error e
  | .ok raw => new raw

end Handle

/-! ## Call & eval layer

A foreign call's observable outcome is external input: the raw pointer it
returns and the state of the pending-exception slot immediately afterwards
(`src/julia-rs/src/api/function.rs`, `src/julia-rs/src/api/mod.rs`). -/

/-- Outcome of one foreign call: returned raw pointer (0 = null) and the
pending-exception slot right after the call. -/
structure FFIOutcome where
  ret : Nat
  exc : Option JlObject
  deriving Repr

/-- Shared tail of `Function::call`/`call0`..`call3`
(`src/julia-rs/src/api/function.rs`): after `jl_call*`, run `jl_catch!()`,
then `Value::new(ret).map_err(|_| Error::CallError)`.  The function handle
(and each argument handle) is locked first; a poisoned lock short-circuits
before the foreign call, leaving the slot untouched.  `argLocks` collects
the poison flags of the locks taken before the call, in order. -/
def Function.callN (argLocks : List Bool) (out : FFIOutcome) :
    Except Error Handle × Option JlObject :=
  if argLocks.any id then (.error .PoisonError, none)
  else
    match jlCatch out.exc with
    | (some e, p) => (.error e, p)
    | (none, p) =>
      (match Handle.new out.ret with
       | .error _ => .error .CallError
       | .ok v => .ok v, p)

/-- `Function::call0` on a function handle: one lock (the function's own). -/
def Function.call0 (f : Handle) (out : FFIOutcome) :
    Except Error Handle × Option JlObject :=
  Function.callN [f.poisoned] out

/-- `Function::call1`. -/
def Function.call1 (f a1 : Handle) (out : FFIOutcome) :
    Except Error Handle × Option JlObject :=
  Function.callN [f.poisoned, a1.poisoned] out

/-- `Function::call2`. -/
def Function.call2 (f a1 a2 : Handle) (out : FFIOutcome) :
    Except Error Handle × Option JlObject :=
  Function.callN [f.poisoned, a1.poisoned, a2.poisoned] out

/-- `Function::call3`. -/
def Function.call3 (f a1 a2 a3 : Handle) (out : FFIOutcome) :
    Except Error Handle × Option JlObject :=
  Function.callN [f.poisoned, a1.poisoned, a2.poisoned, a3.poisoned] out

/-- `Julia::eval_string` (`src/julia-rs/src/api/mod.rs` lines 246-253):
`jl_eval_string`, then `jl_catch!()`, then
`Value::new(ret).map_err(|_| Error::EvalError)`. -/
def Julia.evalString (out : FFIOutcome) :
    Except Error Handle × Option JlObject :=
  match jlCatch out.exc with
  | (some e, p) => (.error e, p)
  | (none, p) =>
    (match Handle.new out.ret with
     | .error _ => .error .EvalError
     | .ok v => .ok v, p)

/-! ## Dynamic type tests (`src/julia-sys/src/lib.rs`)

Each `jl_is_X` reads the tag word of the pointee and compares it against a
fixed type tag (`jl_typetagis`) — identity comparison of decoded types, here
equality of `JlTag` values.  The 64-bit target is modelled
(`target_pointer_width = "64"`), so `jl_is_long`/`jl_is_ulong` are
`jl_is_int64`/`jl_is_uint64`. -/

def jl_is_bool (o : JlObject) : Bool := o.tag = .tBool
def jl_is_int8 (o : JlObject) : Bool := o.tag = .tInt8
def jl_is_int16 (o : JlObject) : Bool := o.tag = .tInt16
def jl_is_int32 (o : JlObject) : Bool := o.tag = .tInt32
def jl_is_int64 (o : JlObject) : Bool := o.tag = .tInt64
def jl_is_uint8 (o : JlObject) : Bool := o.tag = .tUInt8
def jl_is_uint16 (o : JlObject) : Bool := o.tag = .tUInt16
def jl_is_uint32 (o : JlObject) : Bool := o.tag = .tUInt32
def jl_is_uint64 (o : JlObject) : Bool := o.tag = .tUInt64
def jl_is_string (o : JlObject) : Bool := o.tag = .tString

/-- `jl_is_long` on a 64-bit target (`src/julia-sys/src/lib.rs` lines
826-828). -/
def jl_is_long (o : JlObject) : Bool := jl_is_int64 o

/-- `jl_is_ulong` on a 64-bit target. -/
def jl_is_ulong (o : JlObject) : Bool := jl_is_uint64 o

/-- `jl_is_float32` as defined locally in `src/julia-rs/src/api/value.rs`
lines 627-629: `jl_typeis(val, jl_float32_type)`. -/
def jl_is_float32 (o : JlObject) : Bool := o.tag = .tFloat32

/-- `jl_is_float64` (`src/julia-rs/src/api/value.rs` lines 630-632). -/
def jl_is_float64 (o : JlObject) : Bool := o.tag = .tFloat64

/-! ## Boxing entry points

Modelled from the spec: the `jl_box_*`/`jl_unbox_*` functions belong to the
Runtime ABI boundary ("box/unbox per primitive type") and are not part of
this repository's sources.  Per the Julia C ABI these bindings bind to,
`jl_box_X` allocates a fresh heap object whose datatype is `X` — in
particular `jl_box_bool` yields a `Bool` (normalised to the canonical
`jl_true`/`jl_false`, payload 1 or 0) and `jl_box_char` yields a `Char`, not
a `UInt32` — and `jl_unbox_X` reads the fixed-width payload back verbatim.
(The internal bit encoding of `Char` payloads is irrelevant here: no modelled
operation ever reads a `Char` payload back.) -/

def jl_box_bool (x : Int) : JlObject := ⟨.tBool, if x ≠ 0 then 1 else 0, ""⟩
def jl_box_char (x : Int) : JlObject := ⟨.tChar, x, ""⟩
def jl_box_int8 (x : Int) : JlObject := ⟨.tInt8, x, ""⟩
def jl_box_int16 (x : Int) : JlObject := ⟨.tInt16, x, ""⟩
def jl_box_int32 (x : Int) : JlObject := ⟨.tInt32, x, ""⟩
def jl_box_int64 (x : Int) : JlObject := ⟨.tInt64, x, ""⟩
def jl_box_uint8 (x : Int) : JlObject := ⟨.tUInt8, x, ""⟩
def jl_box_uint16 (x : Int) : JlObject := ⟨.tUInt16, x, ""⟩
def jl_box_uint32 (x : Int) : JlObject := ⟨.tUInt32, x, ""⟩
def jl_box_uint64 (x : Int) : JlObject := ⟨.tUInt64, x, ""⟩
def jl_box_float32 (bits : Int) : JlObject := ⟨.tFloat32, bits, ""⟩
def jl_box_float64 (bits : Int) : JlObject := ⟨.tFloat64, bits, ""⟩

/-- `jl_box_long` on a 64-bit target (`src/julia-sys/src/lib.rs` lines
810-812): `jl_box_int64(x as i64)`. -/
def jl_box_long (x : Int) : JlObject := jl_box_int64 x

/-- `jl_box_ulong` on a 64-bit target: `jl_box_uint64(x as u64)`. -/
def jl_box_ulong (x : Int) : JlObject := jl_box_uint64 x

/-- The payload read back by every `jl_unbox_X` (modelled from the spec's
Runtime ABI boundary; fixed-width read of the boxed payload). -/
def jl_unbox_payload (o : JlObject) : Int := o.payload

/-! ## The `From` boxing conversions (`box_simple!`,
`src/julia-rs/src/api/value.rs` lines 547-615)

`impl From<$t1> for Value { fn from(v) { Value::new_unchecked($t2($fn)) } }`.
Host `bool` is `Bool`; host `char` is its Unicode scalar value (a `Nat`,
`val as u32`); the fixed-width integers are `Int` payloads; floats are raw
bit patterns. -/

def Value.fromBool (val : Bool) : ValueH :=
  ValueH.fresh (jl_box_bool (if val then 1 else 0))
def Value.fromChar (val : Nat) : ValueH := ValueH.fresh (jl_box_char val)
def Value.fromInt8 (val : Int) : ValueH := ValueH.fresh (jl_box_int8 val)
def Value.fromInt16 (val : Int) : ValueH := ValueH.fresh (jl_box_int16 val)
def Value.fromInt32 (val : Int) : ValueH := ValueH.fresh (jl_box_int32 val)
def Value.fromInt64 (val : Int) : ValueH := ValueH.fresh (jl_box_int64 val)
def Value.fromISize (val : Int) : ValueH := ValueH.fresh (jl_box_long val)
def Value.fromUInt8 (val : Int) : ValueH := ValueH.fresh (jl_box_uint8 val)
def Value.fromUInt16 (val : Int) : ValueH := ValueH.fresh (jl_box_uint16 val)
def Value.fromUInt32 (val : Int) : ValueH := ValueH.fresh (jl_box_uint32 val)
def Value.fromUInt64 (val : Int) : ValueH := ValueH.fresh (jl_box_uint64 val)
def Value.fromUSize (val : Int) : ValueH := ValueH.fresh (jl_box_ulong val)
def Value.fromFloat32 (bits : Int) : ValueH := ValueH.fresh (jl_box_float32 bits)
def Value.fromFloat64 (bits : Int) : ValueH := ValueH.fresh (jl_box_float64 bits)

/-! ## The `TryFrom` unboxing conversions (`unbox_simple!`,
`src/julia-rs/src/api/value.rs` lines 570-599) -/

/-- The body of `unbox_simple!`: `let is_type = { let inner = val.lock()?;
$t1a(inner) };` — then, if the type test passes, `let ret =
val.lock().map(|v| $t1b(v)).map_err(From::from); jl_catch!(); match ret ...`,
else `Err(Error::InvalidUnbox)`.  The pending-exception slot is threaded
through: the `jl_catch!` probe runs (and clears the slot) only on the
type-correct branch. -/
def unboxSimple (typeTest : JlObject → Bool) (unbox : JlObject → Int)
    (val : ValueH) (pending : Option JlObject) :
    Except Error Int × Option JlObject :=
  match val.lock with
  | .error e => (.error e, pending)
  | .ok o =>
    if typeTest o then
      let ret : Except Error Int := (val.lock).map unbox
      match jlCatch pending with
      | (some e, p) => (.error e, p)
      | (none, p) =>
        (match ret with
         | .ok v => .ok v
         | .error x => .error x, p)
    else (.error .InvalidUnbox, pending)

/-- `TryFrom<&Value> for bool`
(`unbox_simple!(jl_is_bool, jl_unbox_bool => bool, |val| val != 0)`). -/
def Value.tryIntoBool (val : ValueH) (pending : Option JlObject) :
    Except Error Bool × Option JlObject :=
  match unboxSimple jl_is_bool jl_unbox_payload val pending with
  | (.ok v, p) => (.ok (v ≠ 0), p)
  | (.error e, p) => (.error e, p)

/-- `char::try_from(u32)` (`std`): fails on surrogate code points and values
above `0x10FFFF`; the wrapper converts the failure through
`From<CharTryFromError> for Error` into `Error::UTF8Error`. -/
def charTryFrom (v : Int) : Except Error Nat :=
  if (0xD800 ≤ v ∧ v ≤ 0xDFFF) ∨ 0x10FFFF < v ∨ v < 0 then .error .UTF8Error
  else .ok v.toNat

/-- `TryFrom<&Value> for char` (`unbox_simple!(jl_is_uint32,
jl_unbox_uint32 => char, |val| char::try_from(val)?)`): the type test is
`jl_is_uint32`, not a `Char` test. -/
def Value.tryIntoChar (val : ValueH) (pending : Option JlObject) :
    Except Error Nat × Option JlObject :=
  match unboxSimple jl_is_uint32 jl_unbox_payload val pending with
  | (.ok v, p) => (charTryFrom v, p)
  | (.error e, p) => (.error e, p)

/-- `TryFrom<&Value> for i8`. -/
def Value.tryIntoInt8 (val : ValueH) (pending : Option JlObject) :
    Except Error Int × Option JlObject :=
  unboxSimple jl_is_int8 jl_unbox_payload val pending

/-- `TryFrom<&Value> for i16`. -/
def Value.tryIntoInt16 (val : ValueH) (pending : Option JlObject) :
    Except Error Int × Option JlObject :=
  unboxSimple jl_is_int16 jl_unbox_payload val pending

/-- `TryFrom<&Value> for i32`. -/
def Value.tryIntoInt32 (val : ValueH) (pending : Option JlObject) :
    Except Error Int × Option JlObject :=
  unboxSimple jl_is_int32 jl_unbox_payload val pending

/-- `TryFrom<&Value> for i64`. -/
def Value.tryIntoInt64 (val : ValueH) (pending : Option JlObject) :
    Except Error Int × Option JlObject :=
  unboxSimple jl_is_int64 jl_unbox_payload val pending

/-- `TryFrom<&Value> for isize` (`jl_is_long`/`jl_unbox_long`). -/
def Value.tryIntoISize (val : ValueH) (pending : Option JlObject) :
    Except Error Int × Option JlObject :=
  unboxSimple jl_is_long jl_unbox_payload val pending

/-- `TryFrom<&Value> for u8`. -/
def Value.tryIntoUInt8 (val : ValueH) (pending : Option JlObject) :
    Except Error Int × Option JlObject :=
  unboxSimple jl_is_uint8 jl_unbox_payload val pending

/-- `TryFrom<&Value> for u16`. -/
def Value.tryIntoUInt16 (val : ValueH) (pending : Option JlObject) :
    Except Error Int × Option JlObject :=
  unboxSimple jl_is_uint16 jl_unbox_payload val pending

/-- `TryFrom<&Value> for u32`. -/
def Value.tryIntoUInt32 (val : ValueH) (pending : Option JlObject) :
    Except Error Int × Option JlObject :=
  unboxSimple jl_is_uint32 jl_unbox_payload val pending

/-- `TryFrom<&Value> for u64`. -/
def Value.tryIntoUInt64 (val : ValueH) (pending : Option JlObject) :
    Except Error Int × Option JlObject :=
  unboxSimple jl_is_uint64 jl_unbox_payload val pending

/-- `TryFrom<&Value> for usize` (`jl_is_ulong`/`jl_unbox_ulong`). -/
def Value.tryIntoUSize (val : ValueH) (pending : Option JlObject) :
    Except Error Int × Option JlObject :=
  unboxSimple jl_is_ulong jl_unbox_payload val pending

/-- `TryFrom<&Value> for f32`. -/
def Value.tryIntoFloat32 (val : ValueH) (pending : Option JlObject) :
    Except Error Int × Option JlObject :=
  unboxSimple jl_is_float32 jl_unbox_payload val pending

/-- `TryFrom<&Value> for f64`. -/
def Value.tryIntoFloat64 (val : ValueH) (pending : Option JlObject) :
    Except Error Int × Option JlObject :=
  unboxSimple jl_is_float64 jl_unbox_payload val pending

/-- `TryFrom<&Value> for String` (`src/julia-rs/src/api/value.rs` lines
647-661): `if val.is_string()` — where `is_string` is
`map_or(|v| jl_is_string(v), false)`, a poisoned lock yielding `false` —
then lock, `jl_string_ptr`, `jl_catch!()`, and the C-string/UTF-8 conversion
(modelled strings are valid UTF-8); otherwise `Err(Error::InvalidUnbox)`. -/
def Value.tryIntoString (val : ValueH) (pending : Option JlObject) :
    Except Error String × Option JlObject :=
  let isStr : Bool :=
    match val.lock with
    | .ok o => jl_is_string o
    | .error _ => false
  if isStr then
    match val.lock with
    | .error e => (.error e, pending)
    | .ok o =>
      match jlCatch pending with
      | (some e, p) => (.error e, p)
      | (none, p) => (.ok o.strData, p)
  else (.error .InvalidUnbox, pending)

/-! ## A uniform view of the unbox targets

Each `TryFrom` impl above is a separate item in the source; to quantify over
them, a target enumeration with a dispatcher.  `HostVal` injects the distinct
host result types into one type. -/

/-- The host types with a `TryFrom<&Value>` unboxing impl. -/
inductive HostTarget where
  | hBool | hChar | hI8 | hI16 | hI32 | hI64 | hISize
  | hU8 | hU16 | hU32 | hU64 | hUSize | hF32 | hF64 | hString
  deriving DecidableEq, Repr

/-- Host-side result values of the unboxing conversions. -/
inductive HostVal where
  | vBool (b : Bool)
  | vChar (scalar : Nat)
  | vInt (n : Int)
  | vFloat (bits : Int)
  | vStr (s : String)
  deriving DecidableEq, Repr

/-- Dispatch `TryFrom<&Value>` by target type. -/
def Value.tryIntoAt (t : HostTarget) (val : ValueH) (pending : Option JlObject) :
    Except Error HostVal × Option JlObject :=
  match t with
  | .hBool =>
    match Value.tryIntoBool val pending with
    | (.ok b, p) => (.ok (.vBool b), p)
    | (.error e, p) => (.error e, p)
  | .hChar =>
    match Value.tryIntoChar val pending with
    | (.ok c, p) => (.ok (.vChar c), p)
    | (.error e, p) => (.error e, p)
  | .hI8 =>
    match Value.tryIntoInt8 val pending with
    | (.ok n, p) => (.ok (.vInt n), p)
    | (.error e, p) => (.error e, p)
  | .hI16 =>
    match Value.tryIntoInt16 val pending with
    | (.ok n, p) => (.ok (.vInt n), p)
    | (.error e, p) => (.error e, p)
  | .hI32 =>
    match Value.tryIntoInt32 val pending with
    | (.ok n, p) => (.ok (.vInt n), p)
    | (.error e, p) => (.error e, p)
  | .hI64 =>
    match Value.tryIntoInt64 val pending with
    | (.ok n, p) => (.ok (.vInt n), p)
    | (.error e, p) => (.error e, p)
  | .hISize =>
    match Value.tryIntoISize val pending with
    | (.ok n, p) => (.ok (.vInt n), p)
    | (.error e, p) => (.error e, p)
  | .hU8 =>
    match Value.tryIntoUInt8 val pending with
    | (.ok n, p) => (.ok (.vInt n), p)
    | (.error e, p) => (.error e, p)
  | .hU16 =>
    match Value.tryIntoUInt16 val pending with
    | (.ok n, p) => (.ok (.vInt n), p)
    | (.error e, p) => (.error e, p)
  | .hU32 =>
    match Value.tryIntoUInt32 val pending with
    | (.ok n, p) => (.ok (.vInt n), p)
    | (.error e, p) => (.error e, p)
  | .hU64 =>
    match Value.tryIntoUInt64 val pending with
    | (.ok n, p) => (.ok (.vInt n), p)
    | (.error e, p) => (.error e, p)
  | .hUSize =>
    match Value.tryIntoUSize val pending with
    | (.ok n, p) => (.ok (.vInt n), p)
    | (.error e, p) => (.error e, p)
  | .hF32 =>
    match Value.tryIntoFloat32 val pending with
    | (.ok n, p) => (.ok (.vFloat n), p)
    | (.error e, p) => (.error e, p)
  | .hF64 =>
    match Value.tryIntoFloat64 val pending with
    | (.ok n, p) => (.ok (.vFloat n), p)
    | (.error e, p) => (.error e, p)
  | .hString =>
    match Value.tryIntoString val pending with
    | (.ok s, p) => (.ok (.vStr s), p)
    | (.error e, p) => (.error e, p)

/-- The dynamic type test actually performed by each `TryFrom` impl (read
off the `unbox_simple!` invocations in `src/julia-rs/src/api/value.rs` lines
624-661).  Note the `char` impl tests `jl_is_uint32`. -/
def unboxTypeTest : HostTarget → JlObject → Bool
  | .hBool, o => jl_is_bool o
  | .hChar, o => jl_is_uint32 o
  | .hI8, o => jl_is_int8 o
  | .hI16, o => jl_is_int16 o
  | .hI32, o => jl_is_int32 o
  | .hI64, o => jl_is_int64 o
  | .hISize, o => jl_is_long o
  | .hU8, o => jl_is_uint8 o
  | .hU16, o => jl_is_uint16 o
  | .hU32, o => jl_is_uint32 o
  | .hU64, o => jl_is_uint64 o
  | .hUSize, o => jl_is_ulong o
  | .hF32, o => jl_is_float32 o
  | .hF64, o => jl_is_float64 o
  | .hString, o => jl_is_string o

/-! ## GC coordination primitives (`src/julia-sys/src`) -/

/-- The 2-bit generational GC colour of an object, read from its tag-adjacent
header bits (`(*jl_astaggedvalue(x)).bits.gc()`); 3 marks a fully old
object. -/
structure GcHeader where
  gc : Nat
  deriving DecidableEq, Repr

/-- The slice of a Type Descriptor's layout the write barriers consult:
its internal-pointer count (`(*layout).npointers`). -/
structure DatatypeLayout where
  npointers : Nat
  deriving DecidableEq, Repr

/-- `jl_gc_wb` (`src/julia-sys/src/lib.rs` lines 129-136): enqueue `parent`
via `jl_gc_queue_root` iff `parent`'s gc bits are 3 and `ptr`'s lowest gc bit
(`gc & 1`) is clear.  Returns whether the enqueue happened. -/
def jl_gc_wb (parent ptr : GcHeader) : Bool :=
  if parent.gc = 3 ∧ ptr.gc % 2 = 0 then true else false

/-- `jl_gc_wb_back` (`src/julia-sys/src/lib.rs` lines 138-143): enqueue
`ptr` itself iff its gc bits are 3. -/
def jl_gc_wb_back (ptr : GcHeader) : Bool :=
  if ptr.gc = 3 then true else false

/-- `jl_gc_multi_wb` (`src/julia-sys/src/lib.rs` lines 145-157), verbatim
control flow: the first guard returns early when `parent.gc != 3`
("parent is young or in remset"); the second guard — whose comment reads
"ptr is old and not in remset" — tests `parent.gc == 3` again; only past
both guards is the `ptr` datatype layout's `npointers` consulted and
`jl_gc_queue_multiroot` reached.  Returns whether the enqueue happened. -/
def jl_gc_multi_wb (parent ptr : GcHeader) (ptrLayout : DatatypeLayout) :
    Bool :=
  if parent.gc ≠ 3 then false
  else if parent.gc = 3 then false
  else if ptrLayout.npointers ≠ 0 then
    let _ := ptr
    true
  else false

/-- Modelled from the spec ("if A is in the 'old' generation and B is not
fully 'old', A must be enqueued"; "A multi-write-barrier variant additionally
checks the object's Type Descriptor has a nonzero internal-pointer count
before enqueuing"): the condition under which the claim says
`jl_gc_multi_wb` enqueues. -/
def specMultiWbEnqueues (parent ptr : GcHeader)
    (ptrLayout : DatatypeLayout) : Bool :=
  parent.gc = 3 && ptr.gc ≠ 3 && ptrLayout.npointers ≠ 0

/-! ## GC state transitions (`src/julia-sys/src/threads.rs`,
`src/julia-sys/src/atomics.rs`)

Thread-local memory is modelled as an address-indexed store
`mem : Nat → Int` (the per-thread `gc_state` byte lives at one address, the
callee's local `state` at another).  The atomic helpers take their
`AtomicPtr<T>` argument by value, so a cell is a plain value holding one raw
pointer; storing into it mutates only that cell. -/

/-- An `AtomicPtr<T>` value: a cell holding one raw pointer (an address). -/
structure AtomicPtrCell where
  ptr : Nat
  deriving DecidableEq, Repr

/-- `AtomicPtr::new(p)`: a fresh by-value cell containing the pointer `p`. -/
def AtomicPtrCell.new (p : Nat) : AtomicPtrCell := ⟨p⟩

/-- `jl_atomic_load_relaxed` (`src/julia-sys/src/atomics.rs` lines 3-5):
`ptr.load(Ordering::Relaxed)` — read the pointer held in the by-value
cell.  (Callers such as `jl_gc_state_save_and_set` then dereference the
returned pointer themselves, which does read the pointee.) -/
def jl_atomic_load_relaxed (ptr : AtomicPtrCell) : Nat := ptr.ptr

/-- `jl_atomic_store_release` (`src/julia-sys/src/atomics.rs` lines 11-13):
`ptr.store(desired, Ordering::Release)` — overwrite the pointer held in the
by-value cell `ptr` with `desired`.  No pointer is dereferenced, so memory
is left untouched; the only thing written is the cell itself, which the
caller drops.  Returns the unchanged memory and the cell's final value. -/
def jl_atomic_store_release (mem : Nat → Int) (ptr : AtomicPtrCell)
    (desired : Nat) : (Nat → Int) × AtomicPtrCell :=
  (mem, { ptr with ptr := desired })

/-- `JL_GC_STATE_SAFE`, from the Julia headers the bindings are generated
from; its exact value is immaterial to the theorems (only that it is
nonzero). -/
def JL_GC_STATE_SAFE : Int := 2

/-- The GC-unsafe ("running") state byte.  The source fixes it at 0:
`jl_gc_unsafe_enter` passes new state 0, and `jl_gc_unsafe_leave` reports 0
as the state being left (`src/julia-sys/src/threads.rs` lines 41-47). -/
def gcStateRunning : Int := 0

/-- Observable outcome of `jl_gc_state_set`
(`src/julia-sys/src/threads.rs` lines 23-31) besides memory: the old state
returned and whether `jl_gc_safepoint_` was polled. -/
structure GcStateSetResult where
  ret : Int
  polled : Bool
  deriving DecidableEq, Repr

/-- `jl_gc_state_set` over `mem`, with `gcStateAddr` the address of
`(*ptls).gc_state` and `stateAddr` the address of the local `state`
argument.  Its first line is
`jl_atomic_store_release(AtomicPtr::new(&mut (*ptls).gc_state), &mut state)`:
`AtomicPtr::new` copies the field's address into a fresh by-value cell and
the release store overwrites the pointer held in that temporary cell with
the local's address, then the cell is dropped — `(*ptls).gc_state` itself is
never written.  Then the safepoint is polled iff
`old_state != 0 && state == 0`, and `old_state` is returned. -/
def jl_gc_state_set (mem : Nat → Int) (gcStateAddr stateAddr : Nat)
    (state old_state : Int) : (Nat → Int) × GcStateSetResult :=
  let store := jl_atomic_store_release mem (AtomicPtrCell.new gcStateAddr)
    stateAddr
  (store.1,
   { ret := old_state
     polled := if old_state ≠ 0 ∧ state = 0 then true else false })

/-- `jl_gc_state_save_and_set`: `jl_gc_state_set` with the old state read
as `*jl_atomic_load_relaxed(AtomicPtr::new(&mut (*ptls).gc_state))` — the
load returns the pointer held in the temporary cell (the field's address)
and the dereference reads the current byte, so this path does observe the
real state. -/
def jl_gc_state_save_and_set (mem : Nat → Int) (gcStateAddr stateAddr : Nat)
    (state : Int) : (Nat → Int) × GcStateSetResult :=
  jl_gc_state_set mem gcStateAddr stateAddr state
    (mem (jl_atomic_load_relaxed (AtomicPtrCell.new gcStateAddr)))

/-- `jl_gc_unsafe_enter`: enter the running/GC-unsafe state (new state 0). -/
def jl_gc_unsafe_enter (mem : Nat → Int) (gcStateAddr stateAddr : Nat) :
    (Nat → Int) × GcStateSetResult :=
  jl_gc_state_save_and_set mem gcStateAddr stateAddr 0

/-- `jl_gc_unsafe_leave`: restore `state`, leaving the unsafe state (0). -/
def jl_gc_unsafe_leave (mem : Nat → Int) (gcStateAddr stateAddr : Nat)
    (state : Int) : (Nat → Int) × GcStateSetResult :=
  jl_gc_state_set mem gcStateAddr stateAddr state 0

/-- `jl_gc_safe_enter`: enter the GC-safe state. -/
def jl_gc_safe_enter (mem : Nat → Int) (gcStateAddr stateAddr : Nat) :
    (Nat → Int) × GcStateSetResult :=
  jl_gc_state_save_and_set mem gcStateAddr stateAddr JL_GC_STATE_SAFE

/-- `jl_gc_safe_leave`: restore `state`, leaving the GC-safe state. -/
def jl_gc_safe_leave (mem : Nat → Int) (gcStateAddr stateAddr : Nat)
    (state : Int) : (Nat → Int) × GcStateSetResult :=
  jl_gc_state_set mem gcStateAddr stateAddr state JL_GC_STATE_SAFE

/-! ## Spec-side definitions

Definitions that follow the spec's/claims' words rather than the source, for
comparison against the source-derived definitions above. -/

/-- Modelled from the claim's words (the spec's closed fault taxonomy):
argument error, bounds error, divide-by-zero, domain error, end-of-file,
generic error, inexact conversion, init error, interrupt, invalid state, key
error, load error, out-of-memory, read-only-memory violation, remote
exception, method-dispatch error, overflow, parse error, system error, type
error, undefined reference, undefined variable, unicode error — "plus
unknown".  Note this list has no composite-exception entry. -/
def specClaimedKinds : List ExcKind :=
  [.Argument, .Bounds, .Divide, .Domain, .EOF, .Error, .Inexact, .Init,
   .Interrupt, .InvalidState, .Key, .Load, .OutOfMemory, .ReadOnlyMemory,
   .Remote, .Method, .Overflow, .Parse, .System, .Type, .UndefRef,
   .UndefVar, .Unicode, .Unknown]

/-- The fixed exception-name-to-kind table: the recognized runtime type
names and the variant each one classifies to.  This is the spec taxonomy
extended with the composite-exception entry the source carries. -/
def specExceptionTable : List (String × ExcKind) :=
  [("ArgumentError", .Argument), ("BoundsError", .Bounds),
   ("CompositeException", .Composite), ("DivideError", .Divide),
   ("DomainError", .Domain), ("EOFError", .EOF),
   ("ErrorException", .Error), ("InexactError", .Inexact),
   ("InitError", .Init), ("InterruptException", .Interrupt),
   ("InvalidStateException", .InvalidState), ("KeyError", .Key),
   ("LoadError", .Load), ("OutOfMemoryError", .OutOfMemory),
   ("ReadOnlyMemoryError", .ReadOnlyMemory), ("RemoteException", .Remote),
   ("MethodError", .Method), ("OverflowError", .Overflow),
   ("ParseError", .Parse), ("SystemError", .System),
   ("TypeError", .Type), ("UndefRefError", .UndefRef),
   ("UndefVarError", .UndefVar), ("UnicodeError", .Unicode)]

/-- Modelled from the claim's words ("the requested primitive target
type"): the runtime primitive type corresponding to each host unbox target.
Host `char` corresponds to the runtime `Char` datatype; on the 64-bit
target, `isize`/`usize` correspond to `Int64`/`UInt64`. -/
def specTargetTag : HostTarget → JlTag
  | .hBool => .tBool
  | .hChar => .tChar
  | .hI8 => .tInt8
  | .hI16 => .tInt16
  | .hI32 => .tInt32
  | .hI64 => .tInt64
  | .hISize => .tInt64
  | .hU8 => .tUInt8
  | .hU16 => .tUInt16
  | .hU32 => .tUInt32
  | .hU64 => .tUInt64
  | .hUSize => .tUInt64
  | .hF32 => .tFloat32
  | .hF64 => .tFloat64
  | .hString => .tString

/-! ## Helper lemmas -/

/-- Catching a pending exception yields its classification and clears the
slot. -/
theorem Exception.catchPending_some (o : JlObject) :
    Exception.catchPending (some o) = (some (Exception.classifyObj o), none) :=
  rfl

/-- Catching with a clear slot yields nothing. -/
theorem Exception.catchPending_none :
    Exception.catchPending none = (none, none) := rfl

/-- The `jl_catch!` probe on a pending exception. -/
theorem jlCatch_some (o : JlObject) :
    jlCatch (some o) =
      (some (.UnhandledException (Exception.classifyObj o)), none) := rfl

/-- The `jl_catch!` probe on a clear slot. -/
theorem jlCatch_none : jlCatch none = (none, none) := rfl

/-- `unbox_simple!` with a pending exception and a passing type test returns
the classified unhandled-exception error and clears the slot. -/
theorem unboxSimple_pending (typeTest : JlObject → Bool)
    (unbox : JlObject → Int) (v : ValueH) (o : JlObject)
    (hv : v.poisoned = false) (ht : typeTest v.obj = true) :
    unboxSimple typeTest unbox v (some o) =
      (.error (.UnhandledException (Exception.classifyObj o)), none) := by
  simp [unboxSimple, ValueH.lock, hv, ht, jlCatch_some]

/-- `unbox_simple!` with a failing type test returns `InvalidUnbox` and does
not touch the pending slot. -/
theorem unboxSimple_wrong_type (typeTest : JlObject → Bool)
    (unbox : JlObject → Int) (v : ValueH) (p : Option JlObject)
    (hv : v.poisoned = false) (ht : typeTest v.obj = false) :
    unboxSimple typeTest unbox v p = (.error .InvalidUnbox, p) := by
  simp [unboxSimple, ValueH.lock, hv, ht]

/-! ## Claim theorems -/

/-- C2: every call to `Exception::catch` leaves the pending-exception slot
clear: afterwards `Exception::occurred()` is false, a second catch with no
intervening fault returns `None`, and a second, unrelated evaluation's probe
observes a clear (non-pending) state. -/
theorem exception_catch_clears_pending (pending : Option JlObject) :
    (Exception.catchPending pending).2 = none ∧
    Exception.occurred (Exception.catchPending pending).2 = false ∧
    (Exception.catchPending (Exception.catchPending pending).2).1 = none ∧
    jlCatch (Exception.catchPending pending).2 = (none, none) := by
  cases pending <;>
    simp [Exception.catchPending, Exception.occurred, jlCatch]

/-- C3 counterexample: the source classifies the runtime type name
"CompositeException" into a composite-exception variant that is not in the
claim's closed taxonomy list, so the set of variants is not exactly the
claimed list plus "unknown". -/
theorem exception_taxonomy_counterexample :
    Exception.withValue (ValueH.fresh ⟨.tOther "CompositeException", 0, ""⟩)
      = .ok (.Composite (ValueH.fresh ⟨.tOther "CompositeException", 0, ""⟩)) ∧
    ExcKind.Composite ∉ specClaimedKinds := by
  exact ⟨rfl, by decide⟩

/-- C3 amended: `Exception::with_value` classifies by exact string match of
the runtime type name against the fixed table — the claim's taxonomy plus a
composite-exception entry — defaulting every unrecognized name to the
unknown variant; every variant embeds the wrapped value; classification
never fails on a freshly wrapped value; and the variant set is exactly the
table's kinds plus unknown. -/
theorem exception_taxonomy_amended :
    (∀ (s : String) (v : ValueH),
      (Exception.classify s v).kind = ((specExceptionTable.lookup s).getD .Unknown)) ∧
    (∀ (s : String) (v : ValueH), (Exception.classify s v).intoInner = v) ∧
    (∀ o : JlObject,
      Exception.withValue (ValueH.fresh o) = .ok (Exception.classifyObj o)) ∧
    (∀ k : ExcKind, k = .Unknown ∨ k ∈ specExceptionTable.map Prod.snd) := by
  refine ⟨?_, ?_, ?_, ?_⟩
  · intro s v
    unfold Exception.classify
    split <;>
      first
        | rfl
        | (next h1 h2 h3 h4 h5 h6 h7 h8 h9 h10 h11 h12 h13 h14 h15 h16 h17
              h18 h19 h20 h21 h22 h23 h24 =>
            simp [specExceptionTable, List.lookup, Exception.kind,
              beq_eq_false_iff_ne.mpr h1, beq_eq_false_iff_ne.mpr h2,
              beq_eq_false_iff_ne.mpr h3, beq_eq_false_iff_ne.mpr h4,
              beq_eq_false_iff_ne.mpr h5, beq_eq_false_iff_ne.mpr h6,
              beq_eq_false_iff_ne.mpr h7, beq_eq_false_iff_ne.mpr h8,
              beq_eq_false_iff_ne.mpr h9, beq_eq_false_iff_ne.mpr h10,
              beq_eq_false_iff_ne.mpr h11, beq_eq_false_iff_ne.mpr h12,
              beq_eq_false_iff_ne.mpr h13, beq_eq_false_iff_ne.mpr h14,
              beq_eq_false_iff_ne.mpr h15, beq_eq_false_iff_ne.mpr h16,
              beq_eq_false_iff_ne.mpr h17, beq_eq_false_iff_ne.mpr h18,
              beq_eq_false_iff_ne.mpr h19, beq_eq_false_iff_ne.mpr h20,
              beq_eq_false_iff_ne.mpr h21, beq_eq_false_iff_ne.mpr h22,
              beq_eq_false_iff_ne.mpr h23, beq_eq_false_iff_ne.mpr h24])
  · intro s v
    unfold Exception.classify
    split <;> rfl
  · intro o
    rfl
  · intro k
    cases k <;> simp [specExceptionTable]

/-- C6: the claim says `jl_gc_multi_wb(parent, ptr)` enqueues exactly when
`parent` is old (gc bits 3), `ptr` is not fully old, and `ptr`'s datatype
layout has nonzero `npointers`.  The code never enqueues: its second guard
re-tests `parent` (its comment speaks of `ptr`), so it returns early on
every input — in particular on an old parent, a young pointee and a layout
with internal pointers, where the sibling single-root barrier `jl_gc_wb`
does enqueue. -/
theorem gc_multi_wb_never_enqueues :
    specMultiWbEnqueues ⟨3⟩ ⟨0⟩ ⟨1⟩ = true ∧
    jl_gc_multi_wb ⟨3⟩ ⟨0⟩ ⟨1⟩ = false ∧
    jl_gc_wb ⟨3⟩ ⟨0⟩ = true ∧
    (∀ (parent ptr : GcHeader) (ly : DatatypeLayout),
      jl_gc_multi_wb parent ptr ly = false) := by
  refine ⟨by decide, by decide, by decide, ?_⟩
  intro parent ptr ly
  by_cases h : parent.gc = 3 <;> simp [jl_gc_multi_wb, h]

/-- C7 counterexample: with the per-thread `gc_state` byte at address 0
holding `JL_GC_STATE_SAFE` and the local `state` argument at address 1,
calling `jl_gc_state_set` with new state 0 and old state `JL_GC_STATE_SAFE`
(a) leaves the byte reading `JL_GC_STATE_SAFE`, not the new state 0 the
claim says is stored (the release store wrote a dropped temporary cell),
and (b) polls the safepoint although the origin is the safe, not the
unsafe, state (the unsafe state is 0, the state `jl_gc_unsafe_enter`
passes); while on the (old = unsafe = 0, new = 0) pair the claim singles
out, (c) no poll is performed. -/
theorem gc_state_set_claim_counterexample :
    (jl_gc_state_set (fun _ => JL_GC_STATE_SAFE) 0 1 0 JL_GC_STATE_SAFE).1 0
      = JL_GC_STATE_SAFE ∧
    (0 : Int) ≠ JL_GC_STATE_SAFE ∧
    (jl_gc_state_set (fun _ => JL_GC_STATE_SAFE) 0 1 0
      JL_GC_STATE_SAFE).2.polled = true ∧
    JL_GC_STATE_SAFE ≠ gcStateRunning ∧
    (jl_gc_state_set (fun _ => gcStateRunning) 0 1 0
      gcStateRunning).2.polled = false := by
  exact ⟨rfl, by decide, rfl, by decide, rfl⟩

/-- C7 amended: `jl_gc_state_set` returns the old state and polls the
safepoint if and only if the old state is nonzero (a GC-safe state) and the
new state is the zero/running state — consequently `jl_gc_unsafe_leave`
(old state 0) never polls while `jl_gc_safe_leave` back to the running
state does; its release store targets a temporary `AtomicPtr` built from
the field's address, so the per-thread state byte is left unchanged at
every address. -/
theorem gc_state_set_polls_leaving_safe (mem : Nat → Int)
    (gcStateAddr stateAddr : Nat) (state old_state : Int) :
    ((jl_gc_state_set mem gcStateAddr stateAddr state old_state).2.polled
        = true ↔ old_state ≠ gcStateRunning ∧ state = 0) ∧
    (jl_gc_state_set mem gcStateAddr stateAddr state old_state).2.ret
      = old_state ∧
    (∀ addr : Nat,
      (jl_gc_state_set mem gcStateAddr stateAddr state old_state).1 addr
        = mem addr) ∧
    (jl_gc_unsafe_leave mem gcStateAddr stateAddr state).2.polled = false ∧
    (jl_gc_safe_leave mem gcStateAddr stateAddr 0).2.polled = true := by
  refine ⟨?_, rfl, fun addr => rfl, ?_, rfl⟩
  · by_cases h : old_state ≠ 0 ∧ state = 0 <;>
      simp [jl_gc_state_set, jl_atomic_store_release, gcStateRunning, h]
  · simp [jl_gc_unsafe_leave, jl_gc_state_set, jl_atomic_store_release]

/-- C8: a handle that is the sole shared owner of its slot, unpoisoned and
wrapping a non-null pointer, reinterprets through `into_value`/`from_value`
into a handle of the other type that locks to exactly the same raw pointer,
with no reallocation. -/
theorem handle_reinterpretation_preserves_pointer (h : Handle)
    (ho : h.owners = 1) (hp : h.poisoned = false) (hn : h.ptr ≠ 0) :
    Handle.fromValue h = .ok (Handle.newUnchecked h.ptr) ∧
    Handle.intoValue h = .ok (Handle.newUnchecked h.ptr) ∧
    (Handle.newUnchecked h.ptr).lock = .ok h.ptr := by
  simp [Handle.fromValue, Handle.intoValue, Handle.intoInner, Handle.new,
    Handle.newUnchecked, Handle.lock, ho, hp, hn]

/-- C8 witness: the sole-owner, unpoisoned handle wrapping pointer 5
reinterprets to a handle locking to 5. -/
theorem handle_reinterpretation_preserves_pointer_witness :
    Handle.fromValue ⟨5, 1, false⟩ = .ok (Handle.newUnchecked 5) ∧
    Handle.intoValue ⟨5, 1, false⟩ = .ok (Handle.newUnchecked 5) ∧
    (Handle.newUnchecked 5).lock = .ok 5 :=
  handle_reinterpretation_preserves_pointer ⟨5, 1, false⟩ rfl rfl
    (by decide)

/-- C9: the checked constructor of every macro-generated handle type fails
with the null-pointer error on the null pointer and constructs no handle;
on any non-null pointer it succeeds with a fresh sole-owner handle. -/
theorem handle_new_null_check (p : Nat) (hp : p ≠ 0) :
    Handle.new 0 = .error .NullPointer ∧
    Handle.new p = .ok (Handle.newUnchecked p) := by
  constructor
  · rfl
  · simp [Handle.new, hp]

/-- C9 witness: at the non-null pointer 7. -/
theorem handle_new_null_check_witness :
    (7 : Nat) ≠ 0 ∧
    (Handle.new 0 = .error .NullPointer ∧
      Handle.new 7 = .ok (Handle.newUnchecked 7)) :=
  ⟨by decide, handle_new_null_check 7 (by decide)⟩

/-- C1: whenever a guest exception is pending immediately after the foreign
call inside a wrapper operation probing through the `jl_catch!` convention
(eval, the call family, the type-correct unboxing path), the operation
returns the `UnhandledException` error embedding the classified exception,
returns no partial result, and leaves the slot cleared — the fault is never
dropped. -/
theorem wrapper_ops_propagate_pending_exception
    (e : JlObject) (out : FFIOutcome) (f a1 a2 a3 : Handle)
    (hexc : out.exc = some e)
    (hf : f.poisoned = false) (h1 : a1.poisoned = false)
    (h2 : a2.poisoned = false) (h3 : a3.poisoned = false) :
    Julia.evalString out
      = (.error (.UnhandledException (Exception.classifyObj e)), none) ∧
    Function.call0 f out
      = (.error (.UnhandledException (Exception.classifyObj e)), none) ∧
    Function.call1 f a1 out
      = (.error (.UnhandledException (Exception.classifyObj e)), none) ∧
    Function.call2 f a1 a2 out
      = (.error (.UnhandledException (Exception.classifyObj e)), none) ∧
    Function.call3 f a1 a2 a3 out
      = (.error (.UnhandledException (Exception.classifyObj e)), none) ∧
    (∀ locks : List Bool, locks.any id = false →
      Function.callN locks out
        = (.error (.UnhandledException (Exception.classifyObj e)), none)) ∧
    (∀ (v : ValueH) (t : HostTarget), v.poisoned = false →
      unboxTypeTest t v.obj = true →
      Value.tryIntoAt t v out.exc
        = (.error (.UnhandledException (Exception.classifyObj e)), none)) := by
  refine ⟨?_, ?_, ?_, ?_, ?_, ?_, ?_⟩
  · simp [Julia.evalString, hexc, jlCatch_some]
  · simp [Function.call0, Function.callN, hf, hexc, jlCatch_some]
  · simp [Function.call1, Function.callN, hf, h1, hexc, jlCatch_some]
  · simp [Function.call2, Function.callN, hf, h1, h2, hexc, jlCatch_some]
  · simp [Function.call3, Function.callN, hf, h1, h2, h3, hexc,
      jlCatch_some]
  · intro locks hl
    simp [Function.callN, hl, hexc, jlCatch_some]
  · intro v t hv ht
    cases t <;> simp only [unboxTypeTest] at ht <;>
      simp [Value.tryIntoAt, Value.tryIntoBool, Value.tryIntoChar,
        Value.tryIntoInt8, Value.tryIntoInt16, Value.tryIntoInt32,
        Value.tryIntoInt64, Value.tryIntoISize, Value.tryIntoUInt8,
        Value.tryIntoUInt16, Value.tryIntoUInt32, Value.tryIntoUInt64,
        Value.tryIntoUSize, Value.tryIntoFloat32, Value.tryIntoFloat64,
        Value.tryIntoString, ValueH.lock, hexc, hv, ht,
        unboxSimple_pending, jlCatch_some]

/-- C1 witness: a pending "ParseError" exception after an eval whose foreign
call returned null is propagated as the classified unhandled-exception
error. -/
theorem wrapper_ops_propagate_pending_exception_witness :
    Julia.evalString ⟨0, some ⟨.tOther "ParseError", 0, ""⟩⟩
      = (.error (.UnhandledException
          (Exception.classifyObj ⟨.tOther "ParseError", 0, ""⟩)), none) :=
  (wrapper_ops_propagate_pending_exception ⟨.tOther "ParseError", 0, ""⟩
    ⟨0, some ⟨.tOther "ParseError", 0, ""⟩⟩ ⟨1, 1, false⟩ ⟨1, 1, false⟩
    ⟨1, 1, false⟩ ⟨1, 1, false⟩ rfl rfl rfl rfl rfl).1

/-- C4: the claim says box-then-unbox round-trips for every boxable type
including `char`; every type except `char` does round-trip, but a boxed
`char` is a `Char`-typed runtime value while the `char` unboxing impl tests
`jl_is_uint32`, so the round trip fails with `InvalidUnbox` (here at the
scalar 65, i.e. the character A). -/
theorem box_unbox_round_trip_char_fails :
    Value.tryIntoChar (Value.fromChar 65) none
      = (.error .InvalidUnbox, none) ∧
    (∀ b : Bool, Value.tryIntoBool (Value.fromBool b) none = (.ok b, none)) ∧
    (∀ n : Int,
      Value.tryIntoInt8 (Value.fromInt8 n) none = (.ok n, none)) ∧
    (∀ n : Int,
      Value.tryIntoInt16 (Value.fromInt16 n) none = (.ok n, none)) ∧
    (∀ n : Int,
      Value.tryIntoInt32 (Value.fromInt32 n) none = (.ok n, none)) ∧
    (∀ n : Int,
      Value.tryIntoInt64 (Value.fromInt64 n) none = (.ok n, none)) ∧
    (∀ n : Int,
      Value.tryIntoISize (Value.fromISize n) none = (.ok n, none)) ∧
    (∀ n : Int,
      Value.tryIntoUInt8 (Value.fromUInt8 n) none = (.ok n, none)) ∧
    (∀ n : Int,
      Value.tryIntoUInt16 (Value.fromUInt16 n) none = (.ok n, none)) ∧
    (∀ n : Int,
      Value.tryIntoUInt32 (Value.fromUInt32 n) none = (.ok n, none)) ∧
    (∀ n : Int,
      Value.tryIntoUInt64 (Value.fromUInt64 n) none = (.ok n, none)) ∧
    (∀ n : Int,
      Value.tryIntoUSize (Value.fromUSize n) none = (.ok n, none)) ∧
    (∀ bits : Int,
      Value.tryIntoFloat32 (Value.fromFloat32 bits) none
        = (.ok bits, none)) ∧
    (∀ bits : Int,
      Value.tryIntoFloat64 (Value.fromFloat64 bits) none
        = (.ok bits, none)) := by
  refine ⟨rfl, ?_, fun n => rfl, fun n => rfl, fun n => rfl, fun n => rfl,
    fun n => rfl, fun n => rfl, fun n => rfl, fun n => rfl, fun n => rfl,
    fun n => rfl, fun bits => rfl, fun bits => rfl⟩
  intro b
  cases b <;> rfl

/-- C5 counterexample: an unpoisoned `Value` whose dynamic runtime type is
`UInt32` — not `Char`, the requested primitive target type of host `char` —
unboxes into `char` successfully (yielding the character A), instead of
failing with `InvalidUnbox`. -/
theorem wrong_type_unbox_counterexample :
    (ValueH.fresh ⟨.tUInt32, 65, ""⟩).poisoned = false ∧
    (ValueH.fresh ⟨.tUInt32, 65, ""⟩).obj.tag ≠ specTargetTag .hChar ∧
    Value.tryIntoAt .hChar (ValueH.fresh ⟨.tUInt32, 65, ""⟩) none
      = (.ok (.vChar 65), none) := by
  exact ⟨rfl, by decide, rfl⟩

/-- C5 amended: an unpoisoned `Value` failing an unbox target's dynamic type
test fails with exactly `InvalidUnbox`; that test is exact equality with the
requested primitive target type for every target except `char`, whose test
accepts `UInt32`-typed values instead of `Char`-typed ones. -/
theorem wrong_type_unbox_amended (t : HostTarget) (v : ValueH)
    (p : Option JlObject) (hv : v.poisoned = false)
    (ht : unboxTypeTest t v.obj = false) :
    Value.tryIntoAt t v p = (.error .InvalidUnbox, p) ∧
    (∀ (t2 : HostTarget) (o : JlObject), t2 ≠ .hChar →
      unboxTypeTest t2 o = decide (o.tag = specTargetTag t2)) ∧
    (∀ o : JlObject,
      unboxTypeTest .hChar o = decide (o.tag = JlTag.tUInt32)) := by
  refine ⟨?_, ?_, fun o => rfl⟩
  · cases t <;> simp only [unboxTypeTest] at ht <;>
      simp [Value.tryIntoAt, Value.tryIntoBool, Value.tryIntoChar,
        Value.tryIntoInt8, Value.tryIntoInt16, Value.tryIntoInt32,
        Value.tryIntoInt64, Value.tryIntoISize, Value.tryIntoUInt8,
        Value.tryIntoUInt16, Value.tryIntoUInt32, Value.tryIntoUInt64,
        Value.tryIntoUSize, Value.tryIntoFloat32, Value.tryIntoFloat64,
        Value.tryIntoString, ValueH.lock, hv, ht, unboxSimple_wrong_type]
  · intro t2 o h2
    cases t2 <;> first | rfl | exact absurd rfl h2

/-- C5 amended witness: unboxing an `Int16`-typed value as `i8` fails with
`InvalidUnbox`. -/
theorem wrong_type_unbox_amended_witness :
    Value.tryIntoAt .hI8 (ValueH.fresh ⟨.tInt16, 0, ""⟩) none
      = (.error .InvalidUnbox, none) :=
  (wrong_type_unbox_amended .hI8 (ValueH.fresh ⟨.tInt16, 0, ""⟩) none rfl
    (by decide)).1

/-- C10: a foreign call returning a null result pointer with no pending
guest exception makes the call family return `CallError` and `eval_string`
return `EvalError`; the `NullPointer` variant is never surfaced from these
call/eval paths for any outcome. -/
theorem call_eval_null_result_errors
    (out : FFIOutcome) (f a1 a2 a3 : Handle)
    (hret : out.ret = 0) (hexc : out.exc = none)
    (hf : f.poisoned = false) (h1 : a1.poisoned = false)
    (h2 : a2.poisoned = false) (h3 : a3.poisoned = false) :
    (Function.call0 f out).1 = .error .CallError ∧
    (Function.call1 f a1 out).1 = .error .CallError ∧
    (Function.call2 f a1 a2 out).1 = .error .CallError ∧
    (Function.call3 f a1 a2 a3 out).1 = .error .CallError ∧
    (∀ locks : List Bool, locks.any id = false →
      (Function.callN locks out).1 = .error .CallError) ∧
    (Julia.evalString out).1 = .error .EvalError ∧
    (∀ (out2 : FFIOutcome) (locks : List Bool),
      (Function.callN locks out2).1 ≠ .error .NullPointer) ∧
    (∀ out2 : FFIOutcome,
      (Julia.evalString out2).1 ≠ .error .NullPointer) := by
  refine ⟨?_, ?_, ?_, ?_, ?_, ?_, ?_, ?_⟩
  · simp [Function.call0, Function.callN, hf, hexc, hret, jlCatch_none,
      Handle.new]
  · simp [Function.call1, Function.callN, hf, h1, hexc, hret, jlCatch_none,
      Handle.new]
  · simp [Function.call2, Function.callN, hf, h1, h2, hexc, hret,
      jlCatch_none, Handle.new]
  · simp [Function.call3, Function.callN, hf, h1, h2, h3, hexc, hret,
      jlCatch_none, Handle.new]
  · intro locks hl
    simp [Function.callN, hl, hexc, hret, jlCatch_none, Handle.new]
  · simp [Julia.evalString, hexc, hret, jlCatch_none, Handle.new]
  · intro out2 locks
    by_cases hl : locks.any id
    · simp [Function.callN, hl]
    · cases hx : out2.exc with
      | some o => simp [Function.callN, hl, hx, jlCatch_some]
      | none =>
        by_cases hr : out2.ret = 0 <;>
          simp [Function.callN, hl, hx, jlCatch_none, Handle.new, hr]
  · intro out2
    cases hx : out2.exc with
    | some o => simp [Julia.evalString, hx, jlCatch_some]
    | none =>
      by_cases hr : out2.ret = 0 <;>
        simp [Julia.evalString, hx, jlCatch_none, Handle.new, hr]

/-- C10 witness: a null result with a clear exception slot yields
`CallError` from `call0`. -/
theorem call_eval_null_result_errors_witness :
    (Function.call0 ⟨1, 1, false⟩ ⟨0, none⟩).1 = .error .CallError :=
  (call_eval_null_result_errors ⟨0, none⟩ ⟨1, 1, false⟩ ⟨1, 1, false⟩
    ⟨1, 1, false⟩ ⟨1, 1, false⟩ rfl rfl rfl rfl rfl rfl).1

end JuliaRS
